import Mathlib

/-!
Verification of the Conway Game of Life engine in src/cgol/game.py.

The Python class GameOfLife is embedded shallowly: the grid is a list of
lists of integers (Python ints, 0 = DEAD and 1 = ALIVE), the control state
is the boolean field is_running, and every method that touches the grid or
the control state becomes a pure Lean function on a GameOfLife record.
Presentation state (pygame screen, font, toolbar buttons) never influences
the grid or the control flags and is not modelled.
-/

/-- State of the Game of Life application, following the fields of the
Python class GameOfLife. Cells are Python integers: 0 for a dead cell and
1 for an alive cell. -/
structure GameOfLife where
  grid_size : Int
  cell_size : Int
  grid : List (List Int)
  window_alive : Bool
  is_running : Bool

deriving instance DecidableEq for GameOfLife

/-- Toolbar height in pixels (class constant TOOLBAR_HEIGHT = 30). -/
def TOOLBAR_HEIGHT : Int := 30

/-- Moore neighborhood offsets, in the order of the class constant
DIRECTIONS. -/
def DIRECTIONS : List (Int × Int) :=
  [(-1, -1), (-1, 0), (-1, 1), (0, -1), (0, 1), (1, -1), (1, 0), (1, 1)]

/-- Python expression [[0 for _ in range(n)] for _ in range(n)] used by
make_clear_grid; range(n) is empty when n is nonpositive, which Int.toNat
reproduces. -/
def make_clear_grid (n : Int) : List (List Int) :=
  List.replicate n.toNat (List.replicate n.toNat 0)

/-- Constructor: stores the sizes and starts with a cleared grid and a
stopped simulation, exactly as the Python constructor does. The pygame
window setup is presentation state and is not modelled; note that the
source performs no validation of grid_size. -/
def GameOfLife.init (grid_size cell_size : Int) : GameOfLife :=
  { grid_size := grid_size
    cell_size := cell_size
    grid := make_clear_grid grid_size
    window_alive := true
    is_running := false }

/-- Reading grid[i][j] at natural indices; the defaults are never reached
at in-range indices of a well-formed grid. -/
def cellAt (grid : List (List Int)) (i j : Nat) : Int :=
  (grid.getD i []).getD j 0

/-- Reading grid[r][c] at integer indices; Python indexing with an
in-range nonnegative index. -/
def getCell (grid : List (List Int)) (r c : Int) : Int :=
  cellAt grid r.toNat c.toNat

/-- Writing grid[i][j] = v. -/
def setCell (grid : List (List Int)) (i j : Nat) (v : Int) : List (List Int) :=
  grid.set i ((grid.getD i []).set j v)

/-- count_neighbors: fold over DIRECTIONS, wrapping both indices with
Python %, which on a positive modulus agrees with Int.emod. -/
def GameOfLife.count_neighbors (g : GameOfLife) (row col : Int) : Int :=
  DIRECTIONS.foldl
    (fun count d =>
      count + getCell g.grid ((row + d.1) % g.grid_size) ((col + d.2) % g.grid_size))
    0

/-- apply_rules: build a fresh grid whose every cell is computed from the
current grid via the neighbor count. -/
def GameOfLife.apply_rules (g : GameOfLife) : List (List Int) :=
  (List.range g.grid_size.toNat).map fun (row : Nat) =>
    (List.range g.grid_size.toNat).map fun (col : Nat) =>
      let neighbors := g.count_neighbors (row : Int) (col : Int)
      let cell := cellAt g.grid row col
      if cell = 1 ∧ (neighbors < 2 ∨ neighbors > 3) then 0
      else if cell = 0 ∧ neighbors = 3 then 1
      else cell

/-- update_grid: commit the grid computed by apply_rules. -/
def GameOfLife.update_grid (g : GameOfLife) : GameOfLife :=
  { g with grid := g.apply_rules }

/-- start_simulation. -/
def GameOfLife.start_simulation (g : GameOfLife) : GameOfLife :=
  { g with is_running := true }

/-- pause_simulation. -/
def GameOfLife.pause_simulation (g : GameOfLife) : GameOfLife :=
  { g with is_running := false }

/-- end_simulation: clear the grid and stop. -/
def GameOfLife.end_simulation (g : GameOfLife) : GameOfLife :=
  { g with grid := make_clear_grid g.grid_size, is_running := false }

/-- Simulation step of one iteration of the main loop in run: when
is_running the grid is replaced by apply_rules, otherwise nothing
happens. -/
def GameOfLife.tick (g : GameOfLife) : GameOfLife :=
  if g.is_running then g.update_grid else g

/-- Body of handle_grid_click once the pixel coordinates have been mapped
to cell indices: flip the cell when both indices are in range, otherwise
do nothing. -/
def GameOfLife.toggleCell (g : GameOfLife) (row col : Int) : GameOfLife :=
  if 0 ≤ row ∧ row < g.grid_size ∧ 0 ≤ col ∧ col < g.grid_size then
    { g with grid := setCell g.grid row.toNat col.toNat (1 - getCell g.grid row col) }
  else g

/-- handle_grid_click: floor-divide the pixel coordinates (Python //,
which is Int.fdiv) to obtain the cell indices, then toggle. -/
def GameOfLife.handle_grid_click (g : GameOfLife) (x y : Int) : GameOfLife :=
  g.toggleCell ((y - TOOLBAR_HEIGHT).fdiv g.cell_size) (x.fdiv g.cell_size)

/-- Grid invariant: the grid is an N x N matrix all of whose entries are
0 or 1, where N = grid_size.toNat (Python range clamps a nonpositive size
to an empty range). -/
def wellFormed (g : GameOfLife) : Prop :=
  g.grid.length = g.grid_size.toNat ∧
  ∀ i, i < g.grid_size.toNat →
    (g.grid.getD i []).length = g.grid_size.toNat ∧
    ∀ j, j < g.grid_size.toNat → cellAt g.grid i j = 0 ∨ cellAt g.grid i j = 1

/-- Horizontal blinker pattern: all cells dead except row r at columns
c-1, c, c+1. -/
def blinkerH (N r c : Nat) : List (List Int) :=
  (List.range N).map fun i =>
    (List.range N).map fun j =>
      if i = r ∧ (j + 1 = c ∨ j = c ∨ j = c + 1) then 1 else 0

/-- Vertical blinker pattern: all cells dead except column c at rows
r-1, r, r+1. -/
def blinkerV (N r c : Nat) : List (List Int) :=
  (List.range N).map fun i =>
    (List.range N).map fun j =>
      if (i + 1 = r ∨ i = r ∨ i = r + 1) ∧ j = c then 1 else 0

instance (g : GameOfLife) : Decidable (wellFormed g) := by
  unfold wellFormed; infer_instance

/-! Helper lemmas about grid access. -/

theorem cellAt_map_range (N : Nat) (f : Nat → Nat → Int) {i j : Nat}
    (hi : i < N) (hj : j < N) :
    cellAt ((List.range N).map fun a => (List.range N).map fun b => f a b) i j = f i j := by
  unfold cellAt
  have h1 : ((List.range N).map fun a => (List.range N).map fun b => f a b).getD i []
      = (List.range N).map fun b => f i b := by
    rw [List.getD_eq_getElem _ _ (by simpa using hi), List.getElem_map, List.getElem_range]
  rw [h1, List.getD_eq_getElem _ _ (by simpa using hj), List.getElem_map, List.getElem_range]

theorem cellAt_make_clear_grid (n : Int) (i j : Nat) :
    cellAt (make_clear_grid n) i j = 0 := by
  simp only [cellAt, make_clear_grid, List.getD_eq_getElem?_getD, List.getElem?_replicate]
  split_ifs <;> simp

theorem rowAt_setCell (grid : List (List Int)) (i j a : Nat) (v : Int)
    (hi : i < grid.length) :
    (setCell grid i j v).getD a [] =
      if a = i then (grid.getD i []).set j v else grid.getD a [] := by
  unfold setCell
  by_cases h : a = i
  · subst h
    rw [if_pos rfl, List.getD_eq_getElem?_getD, List.getElem?_set_self (by simpa using hi)]
    rfl
  · rw [if_neg h, List.getD_eq_getElem?_getD, List.getElem?_set_ne (fun e => h e.symm),
      List.getD_eq_getElem?_getD]

theorem cellAt_setCell (grid : List (List Int)) (i j a b : Nat) (v : Int)
    (hi : i < grid.length) (hj : j < (grid.getD i []).length) :
    cellAt (setCell grid i j v) a b =
      if a = i ∧ b = j then v else cellAt grid a b := by
  unfold cellAt
  rw [rowAt_setCell grid i j a v hi]
  by_cases ha : a = i
  · subst ha
    rw [if_pos rfl]
    by_cases hb : b = j
    · subst hb
      rw [if_pos ⟨rfl, rfl⟩, List.getD_eq_getElem?_getD,
        List.getElem?_set_self (by simpa using hj)]
      rfl
    · rw [if_neg (fun e => hb e.2)]
      simp only [List.getD_eq_getElem?_getD, List.getElem?_set_ne (fun e => hb e.symm)]
  · rw [if_neg ha, if_neg (fun e => ha e.1)]

theorem list_set_self {α : Type} (l : List α) (i : Nat) (h : i < l.length) :
    l.set i l[i] = l := by
  apply List.ext_getElem (by simp)
  intro n h1 h2
  simp only [List.getElem_set]
  split
  · next h3 => subst h3; rfl
  · rfl

theorem setCell_setCell (grid : List (List Int)) (i j : Nat) (v w : Int)
    (hi : i < grid.length) :
    setCell (setCell grid i j v) i j w = setCell grid i j w := by
  unfold setCell
  have hrow : (grid.set i ((grid.getD i []).set j v)).getD i []
      = (grid.getD i []).set j v := by
    rw [List.getD_eq_getElem?_getD, List.getElem?_set_self (by simpa using hi)]
    rfl
  rw [hrow, List.set_set, List.set_set]

theorem setCell_cellAt_self (grid : List (List Int)) (i j : Nat)
    (hi : i < grid.length) (hj : j < (grid.getD i []).length) :
    setCell grid i j (cellAt grid i j) = grid := by
  unfold setCell cellAt
  rw [List.getD_eq_getElem _ _ hj, list_set_self _ _ hj,
    List.getD_eq_getElem _ _ hi, list_set_self _ _ hi]

/-! Claim C3: tick is a no-op while stopped and commits apply_rules while
running. -/

/-- C3: for every state, a tick performed while the simulation is stopped
leaves the whole state (in particular the grid) unchanged, and a tick
performed while running replaces the grid with exactly apply_rules of the
current grid, leaving every other field unchanged. -/
theorem tick_stopped_noop_running_steps (g : GameOfLife) :
    (g.is_running = false → g.tick = g) ∧
    (g.is_running = true → g.tick = { g with grid := g.apply_rules }) := by
  constructor <;> intro h <;>
    simp [GameOfLife.tick, GameOfLife.update_grid, h]

/-- Witness for C3 at concrete states: a stopped 3 x 3 game and the same
game started. -/
theorem tick_stopped_noop_running_steps_witness :
    (GameOfLife.init 3 30).tick = GameOfLife.init 3 30 ∧
    (GameOfLife.init 3 30).start_simulation.tick =
      { (GameOfLife.init 3 30).start_simulation with
          grid := (GameOfLife.init 3 30).start_simulation.apply_rules } :=
  ⟨(tick_stopped_noop_running_steps (GameOfLife.init 3 30)).1 rfl,
   (tick_stopped_noop_running_steps ((GameOfLife.init 3 30).start_simulation)).2 rfl⟩

/-! Claim C4: end_simulation stops the simulation and clears the grid. -/

/-- C4: from any state, end_simulation leaves the simulation stopped and
the grid an all-dead matrix of the original grid_size x grid_size
dimensions. -/
theorem end_simulation_stops_and_clears (g : GameOfLife) :
    g.end_simulation.is_running = false ∧
    g.end_simulation.grid_size = g.grid_size ∧
    g.end_simulation.grid.length = g.grid_size.toNat ∧
    (∀ row ∈ g.end_simulation.grid, row.length = g.grid_size.toNat) ∧
    ∀ i j : Nat, cellAt g.end_simulation.grid i j = 0 := by
  refine ⟨rfl, rfl, ?_, ?_, ?_⟩
  · simp [GameOfLife.end_simulation, make_clear_grid]
  · intro row hrow
    have hmem : row ∈ List.replicate g.grid_size.toNat
        (List.replicate g.grid_size.toNat (0 : Int)) := hrow
    rw [List.eq_of_mem_replicate hmem, List.length_replicate]
  · intro i j
    exact cellAt_make_clear_grid g.grid_size i j

/-! Claim C5: the source performs no validation of grid_size at
construction. The claim that a nonpositive grid_size is rejected with a
clear error is refuted below: the constructor succeeds and produces a
zero-size simulation (an empty grid). -/

/-- Counterexample to C5: constructing with grid_size = 0 does not fail;
it produces a zero-size simulation whose grid is the empty matrix. -/
theorem init_zero_size_not_rejected :
    (GameOfLife.init 0 30).grid_size = 0 ∧
    (GameOfLife.init 0 30).grid = [] ∧
    (GameOfLife.init 0 30).is_running = false := by decide

/-- Amended C5: for every grid_size that is nonpositive, construction
succeeds (no validation is performed) and yields a simulation whose grid
is the empty matrix, because Python range(n) is empty for n <= 0. -/
theorem init_nonpositive_empty (n c : Int) (hn : n ≤ 0) :
    (GameOfLife.init n c).grid = [] ∧
    (GameOfLife.init n c).grid_size = n ∧
    (GameOfLife.init n c).is_running = false := by
  refine ⟨?_, rfl, rfl⟩
  simp [GameOfLife.init, make_clear_grid, Int.toNat_of_nonpos hn]

/-- Witness for the amended C5 at grid_size = -3. -/
theorem init_nonpositive_empty_witness :
    (-3 : Int) ≤ 0 ∧
    ((GameOfLife.init (-3) 30).grid = [] ∧
     (GameOfLife.init (-3) 30).grid_size = -3 ∧
     (GameOfLife.init (-3) 30).is_running = false) :=
  ⟨by decide, init_nonpositive_empty (-3) 30 (by decide)⟩

/-! Preservation of the grid invariant. -/

theorem rowAt_make_clear_grid (n : Int) (i : Nat) (hi : i < n.toNat) :
    (make_clear_grid n).getD i [] = List.replicate n.toNat 0 := by
  unfold make_clear_grid
  rw [List.getD_eq_getElem _ _ (by simpa using hi), List.getElem_replicate]

theorem wellFormed_init (n c : Int) : wellFormed (GameOfLife.init n c) := by
  refine ⟨by simp [GameOfLife.init, make_clear_grid], ?_⟩
  intro i hi
  refine ⟨?_, fun j _ => Or.inl (cellAt_make_clear_grid n i j)⟩
  show ((make_clear_grid n).getD i []).length = n.toNat
  rw [rowAt_make_clear_grid n i hi, List.length_replicate]

theorem wellFormed_end_simulation (g : GameOfLife) : wellFormed g.end_simulation := by
  refine ⟨by simp [GameOfLife.end_simulation, make_clear_grid], ?_⟩
  intro i hi
  refine ⟨?_, fun j _ => Or.inl (cellAt_make_clear_grid g.grid_size i j)⟩
  show ((make_clear_grid g.grid_size).getD i []).length = g.grid_size.toNat
  rw [rowAt_make_clear_grid g.grid_size i hi, List.length_replicate]

theorem wellFormed_update_grid (g : GameOfLife) (hg : wellFormed g) :
    wellFormed g.update_grid := by
  constructor
  · show g.apply_rules.length = g.grid_size.toNat
    simp [GameOfLife.apply_rules]
  · intro i hi
    have hi2 : i < g.grid_size.toNat := hi
    constructor
    · show (g.apply_rules.getD i []).length = g.grid_size.toNat
      unfold GameOfLife.apply_rules
      rw [List.getD_eq_getElem _ _ (by simpa using hi2), List.getElem_map,
        List.getElem_range]
      simp
    · intro j hj
      have hj2 : j < g.grid_size.toNat := hj
      show cellAt g.apply_rules i j = 0 ∨ cellAt g.apply_rules i j = 1
      unfold GameOfLife.apply_rules
      rw [cellAt_map_range _ _ hi2 hj2]
      have hcell := (hg.2 i hi2).2 j hj2
      dsimp only
      split_ifs <;> omega

theorem wellFormed_toggleCell (g : GameOfLife) (row col : Int) (hg : wellFormed g) :
    wellFormed (g.toggleCell row col) := by
  unfold GameOfLife.toggleCell
  split_ifs with h
  · obtain ⟨hr0, hrN, hc0, hcN⟩ := h
    have hiN : row.toNat < g.grid_size.toNat := by omega
    have hjN : col.toNat < g.grid_size.toNat := by omega
    have hilen : row.toNat < g.grid.length := by rw [hg.1]; exact hiN
    have hjlen : col.toNat < (g.grid.getD row.toNat []).length := by
      rw [(hg.2 row.toNat hiN).1]; exact hjN
    constructor
    · show (setCell g.grid row.toNat col.toNat _).length = g.grid_size.toNat
      unfold setCell
      rw [List.length_set, hg.1]
    · intro i hi
      constructor
      · show ((setCell g.grid row.toNat col.toNat _).getD i []).length = g.grid_size.toNat
        rw [rowAt_setCell _ _ _ _ _ hilen]
        split_ifs with hie
        · rw [List.length_set]
          exact (hg.2 row.toNat hiN).1
        · exact (hg.2 i hi).1
      · intro j hj
        show cellAt (setCell g.grid row.toNat col.toNat _) i j = 0 ∨
          cellAt (setCell g.grid row.toNat col.toNat _) i j = 1
        rw [cellAt_setCell _ _ _ _ _ _ hilen hjlen]
        split_ifs with hij
        · have hold := (hg.2 row.toNat hiN).2 col.toNat hjN
          show 1 - getCell g.grid row col = 0 ∨ 1 - getCell g.grid row col = 1
          unfold getCell
          omega
        · exact (hg.2 i hi).2 j hj
  · exact hg

theorem wellFormed_tick (g : GameOfLife) (hg : wellFormed g) : wellFormed g.tick := by
  unfold GameOfLife.tick
  split_ifs
  · exact wellFormed_update_grid g hg
  · exact hg

/-! Claim C6: the grid invariant holds after construction and is preserved
by every operation. -/

/-- C6: the grid is always an N x N matrix of cells in 0 or 1: this holds
for a freshly constructed game and is preserved by cell toggling (both the
raw toggle and the pixel-level click handler), by reset (end_simulation),
by a generation advance (update_grid), and by tick. -/
theorem grid_invariant_preserved (g : GameOfLife) (n c x y row col : Int)
    (hg : wellFormed g) :
    wellFormed (GameOfLife.init n c) ∧
    wellFormed (g.toggleCell row col) ∧
    wellFormed (g.handle_grid_click x y) ∧
    wellFormed g.end_simulation ∧
    wellFormed g.update_grid ∧
    wellFormed g.tick :=
  ⟨wellFormed_init n c, wellFormed_toggleCell g row col hg,
   wellFormed_toggleCell g ((y - TOOLBAR_HEIGHT).fdiv g.cell_size) (x.fdiv g.cell_size) hg,
   wellFormed_end_simulation g, wellFormed_update_grid g hg, wellFormed_tick g hg⟩

/-- Witness for C6 at a concrete well-formed game. -/
theorem grid_invariant_preserved_witness :
    wellFormed ((GameOfLife.init 3 30).toggleCell 1 2) ∧
    wellFormed (GameOfLife.init 3 30).update_grid :=
  ⟨(grid_invariant_preserved (GameOfLife.init 3 30) 4 30 35 95 1 2 (by decide)).2.1,
   (grid_invariant_preserved (GameOfLife.init 3 30) 4 30 35 95 1 2 (by decide)).2.2.2.2.1⟩

/-! Claim C7: toggling the same cell twice restores the grid. -/

theorem grid_update_eq_self (g : GameOfLife) (X : List (List Int)) (h : X = g.grid) :
    ({ g with grid := X } : GameOfLife) = g := by
  cases g
  simp_all

/-- C7: toggleCell is self-inverse: for every well-formed game and every
cell coordinates, toggling the same cell twice in succession returns the
game (in particular the grid) to its original state. Out-of-range
coordinates give a no-op twice, so the statement holds for those too. -/
theorem toggleCell_self_inverse (g : GameOfLife) (row col : Int) (hg : wellFormed g) :
    (g.toggleCell row col).toggleCell row col = g := by
  by_cases h : 0 ≤ row ∧ row < g.grid_size ∧ 0 ≤ col ∧ col < g.grid_size
  · obtain ⟨hr0, hrN, hc0, hcN⟩ := h
    have hiN : row.toNat < g.grid_size.toNat := by omega
    have hjN : col.toNat < g.grid_size.toNat := by omega
    have hilen : row.toNat < g.grid.length := by rw [hg.1]; exact hiN
    have hjlen : col.toNat < (g.grid.getD row.toNat []).length := by
      rw [(hg.2 row.toNat hiN).1]; exact hjN
    have h1 : g.toggleCell row col =
        { g with grid := setCell g.grid row.toNat col.toNat (1 - getCell g.grid row col) } := by
      unfold GameOfLife.toggleCell
      rw [if_pos ⟨hr0, hrN, hc0, hcN⟩]
    rw [h1]
    unfold GameOfLife.toggleCell
    rw [if_pos (show 0 ≤ row ∧ row < g.grid_size ∧ 0 ≤ col ∧ col < g.grid_size from
      ⟨hr0, hrN, hc0, hcN⟩)]
    refine grid_update_eq_self g _ ?_
    have hread : getCell (setCell g.grid row.toNat col.toNat (1 - getCell g.grid row col)) row col
        = 1 - getCell g.grid row col := by
      show cellAt _ row.toNat col.toNat = _
      rw [cellAt_setCell _ _ _ _ _ _ hilen hjlen, if_pos ⟨rfl, rfl⟩]
    rw [hread, setCell_setCell _ _ _ _ _ hilen]
    have hv : (1 : Int) - (1 - getCell g.grid row col) = cellAt g.grid row.toNat col.toNat := by
      unfold getCell
      ring
    rw [hv, setCell_cellAt_self _ _ _ hilen hjlen]
  · have h1 : g.toggleCell row col = g := by
      unfold GameOfLife.toggleCell
      rw [if_neg h]
    rw [h1, h1]

/-- Witness for C7 at a concrete game and cell. -/
theorem toggleCell_self_inverse_witness :
    ((GameOfLife.init 3 30).toggleCell 1 2).toggleCell 1 2 = GameOfLife.init 3 30 :=
  toggleCell_self_inverse (GameOfLife.init 3 30) 1 2 (by decide)

/-! Claim C2: count_neighbors counts the alive cells among the 8 wrapped
Moore positions. -/

theorem foldl_add_eq_countP (f : Int × Int → Int) (l : List (Int × Int)) :
    ∀ a : Int, (∀ d ∈ l, f d = 0 ∨ f d = 1) →
      l.foldl (fun acc d => acc + f d) a =
        a + (l.countP fun d => decide (f d = 1) : Nat) := by
  induction l with
  | nil => intro a _; simp
  | cons d t ih =>
    intro a h
    have hd := h d (List.mem_cons_self d t)
    have ht : ∀ x ∈ t, f x = 0 ∨ f x = 1 := fun x hx => h x (List.mem_cons_of_mem d hx)
    rw [List.foldl_cons, ih (a + f d) ht, List.countP_cons]
    rcases hd with h0 | h0 <;> simp [h0] <;> omega

/-- C2: for a well-formed grid of positive size and an in-range cell, the
neighbor count returned by count_neighbors is exactly the number of
directions d among the 8 of DIRECTIONS whose toroidally wrapped position
holds an alive cell, and that count lies in the interval from 0 to 8. -/
theorem count_neighbors_counts_alive (g : GameOfLife) (row col : Int)
    (hg : wellFormed g) (hN : 1 ≤ g.grid_size)
    (hr : 0 ≤ row ∧ row < g.grid_size) (hc : 0 ≤ col ∧ col < g.grid_size) :
    g.count_neighbors row col =
      (DIRECTIONS.countP fun d =>
        decide (getCell g.grid ((row + d.1) % g.grid_size)
          ((col + d.2) % g.grid_size) = 1) : Nat) ∧
    0 ≤ g.count_neighbors row col ∧ g.count_neighbors row col ≤ 8 := by
  have hNpos : (0 : Int) < g.grid_size := by omega
  have hcells : ∀ d ∈ DIRECTIONS,
      (fun d : Int × Int => getCell g.grid ((row + d.1) % g.grid_size)
        ((col + d.2) % g.grid_size)) d = 0 ∨
      (fun d : Int × Int => getCell g.grid ((row + d.1) % g.grid_size)
        ((col + d.2) % g.grid_size)) d = 1 := by
    intro d _
    have h1 : 0 ≤ (row + d.1) % g.grid_size := Int.emod_nonneg _ (by omega)
    have h2 : (row + d.1) % g.grid_size < g.grid_size := Int.emod_lt_of_pos _ hNpos
    have h3 : 0 ≤ (col + d.2) % g.grid_size := Int.emod_nonneg _ (by omega)
    have h4 : (col + d.2) % g.grid_size < g.grid_size := Int.emod_lt_of_pos _ hNpos
    have hi : ((row + d.1) % g.grid_size).toNat < g.grid_size.toNat := by omega
    have hj : ((col + d.2) % g.grid_size).toNat < g.grid_size.toNat := by omega
    exact (hg.2 _ hi).2 _ hj
  have heq : g.count_neighbors row col =
      (DIRECTIONS.countP fun d =>
        decide (getCell g.grid ((row + d.1) % g.grid_size)
          ((col + d.2) % g.grid_size) = 1) : Nat) := by
    have h := foldl_add_eq_countP
      (fun d : Int × Int => getCell g.grid ((row + d.1) % g.grid_size)
        ((col + d.2) % g.grid_size)) DIRECTIONS 0 hcells
    simpa [GameOfLife.count_neighbors] using h
  refine ⟨heq, by rw [heq]; omega, ?_⟩
  rw [heq]
  have h8 : (DIRECTIONS.countP fun d =>
      decide (getCell g.grid ((row + d.1) % g.grid_size)
        ((col + d.2) % g.grid_size) = 1)) ≤ DIRECTIONS.length :=
    List.countP_le_length _
  have hlen : DIRECTIONS.length = 8 := rfl
  omega

/-- Witness for C2 on a concrete game with one alive cell. -/
theorem count_neighbors_counts_alive_witness :
    (0 : Int) ≤ ((GameOfLife.init 3 30).toggleCell 1 1).count_neighbors 0 0 ∧
    ((GameOfLife.init 3 30).toggleCell 1 1).count_neighbors 0 0 ≤ 8 :=
  (count_neighbors_counts_alive ((GameOfLife.init 3 30).toggleCell 1 1) 0 0
    (by decide) (by decide) (by decide) (by decide)).2

/-! Claim C9: count_neighbors is total over all integer coordinates (every
accessed index is reduced into range before lookup) and is periodic
modulo the grid size. -/

/-- C9: for a grid of positive size, every index that count_neighbors
computes is wrapped into the valid range, so the lookup never errors for
any integer row and col, and the count is periodic: shifting row and col
by their residues modulo the grid size does not change the result. -/
theorem count_neighbors_total_and_periodic (g : GameOfLife)
    (hN : 1 ≤ g.grid_size) (row col : Int) :
    (∀ d ∈ DIRECTIONS,
      (0 ≤ (row + d.1) % g.grid_size ∧ (row + d.1) % g.grid_size < g.grid_size) ∧
      (0 ≤ (col + d.2) % g.grid_size ∧ (col + d.2) % g.grid_size < g.grid_size)) ∧
    g.count_neighbors row col =
      g.count_neighbors (row % g.grid_size) (col % g.grid_size) := by
  have hNpos : (0 : Int) < g.grid_size := by omega
  constructor
  · intro d _
    exact ⟨⟨Int.emod_nonneg _ (by omega), Int.emod_lt_of_pos _ hNpos⟩,
           ⟨Int.emod_nonneg _ (by omega), Int.emod_lt_of_pos _ hNpos⟩⟩
  · unfold GameOfLife.count_neighbors
    apply List.foldl_ext
    intro a d _
    have h1 : (row % g.grid_size + d.1) % g.grid_size
        = (row + d.1) % g.grid_size := by
      rw [Int.add_emod (row % g.grid_size) d.1,
        Int.emod_emod_of_dvd _ dvd_rfl, ← Int.add_emod]
    have h2 : (col % g.grid_size + d.2) % g.grid_size
        = (col + d.2) % g.grid_size := by
      rw [Int.add_emod (col % g.grid_size) d.2,
        Int.emod_emod_of_dvd _ dvd_rfl, ← Int.add_emod]
    rw [h1, h2]

/-- Witness for C9 at out-of-range coordinates of a concrete game. -/
theorem count_neighbors_total_and_periodic_witness :
    (GameOfLife.init 3 30).count_neighbors 7 (-5) =
      (GameOfLife.init 3 30).count_neighbors
        (7 % (GameOfLife.init 3 30).grid_size)
        ((-5) % (GameOfLife.init 3 30).grid_size) :=
  (count_neighbors_total_and_periodic (GameOfLife.init 3 30) (by decide) 7 (-5)).2

/-! Claim C1: apply_rules returns a fresh N x N grid computed pointwise
from the pre-transition grid by the Game of Life rules. In the embedding
apply_rules is a pure function of the old state that builds a new list,
so the input grid cannot be mutated; the theorem states the shape of the
result and the value of every cell. -/

/-- C1: apply_rules returns an N x N grid whose cell (i, j) is determined
solely by the pre-transition grid: an alive cell (value 1) with neighbor
count below 2 or above 3 becomes 0, a dead cell (value 0) with neighbor
count exactly 3 becomes 1, and every other cell keeps its previous
value. -/
theorem apply_rules_pointwise (g : GameOfLife) (hg : wellFormed g) (i j : Nat)
    (hi : i < g.grid_size.toNat) (hj : j < g.grid_size.toNat) :
    g.apply_rules.length = g.grid_size.toNat ∧
    (∀ row ∈ g.apply_rules, row.length = g.grid_size.toNat) ∧
    cellAt g.apply_rules i j =
      (if cellAt g.grid i j = 1 ∧
          (g.count_neighbors i j < 2 ∨ g.count_neighbors i j > 3) then 0
       else if cellAt g.grid i j = 0 ∧ g.count_neighbors i j = 3 then 1
       else cellAt g.grid i j) := by
  refine ⟨by simp [GameOfLife.apply_rules], ?_, ?_⟩
  · intro row hrow
    unfold GameOfLife.apply_rules at hrow
    obtain ⟨a, _, rfl⟩ := List.mem_map.mp hrow
    simp
  · unfold GameOfLife.apply_rules
    rw [cellAt_map_range _ _ hi hj]

/-- Witness for C1 on a concrete game with one alive cell. -/
theorem apply_rules_pointwise_witness :
    cellAt ((GameOfLife.init 3 30).toggleCell 1 1).apply_rules 0 0 =
      (if cellAt ((GameOfLife.init 3 30).toggleCell 1 1).grid 0 0 = 1 ∧
          (((GameOfLife.init 3 30).toggleCell 1 1).count_neighbors 0 0 < 2 ∨
           ((GameOfLife.init 3 30).toggleCell 1 1).count_neighbors 0 0 > 3) then 0
       else if cellAt ((GameOfLife.init 3 30).toggleCell 1 1).grid 0 0 = 0 ∧
          ((GameOfLife.init 3 30).toggleCell 1 1).count_neighbors 0 0 = 3 then 1
       else cellAt ((GameOfLife.init 3 30).toggleCell 1 1).grid 0 0) :=
  (apply_rules_pointwise ((GameOfLife.init 3 30).toggleCell 1 1) (by decide) 0 0
    (by decide) (by decide)).2.2

/-! Claim C10: frame property of handle_grid_click. -/

/-- C10: when the pixel coordinates map to in-range cell indices,
handle_grid_click flips exactly the one addressed cell (its new value is
one minus its old value), leaves every other cell unchanged, and leaves
the running flag and the grid size unchanged; when the mapped indices are
out of range it leaves the whole state unchanged (a silent no-op). -/
theorem handle_grid_click_frame (g : GameOfLife) (hg : wellFormed g)
    (x y row col : Int)
    (hrow : row = (y - TOOLBAR_HEIGHT).fdiv g.cell_size)
    (hcol : col = x.fdiv g.cell_size) :
    ((0 ≤ row ∧ row < g.grid_size ∧ 0 ≤ col ∧ col < g.grid_size) →
      cellAt (g.handle_grid_click x y).grid row.toNat col.toNat
          = 1 - cellAt g.grid row.toNat col.toNat ∧
      (∀ a b : Nat, ¬(a = row.toNat ∧ b = col.toNat) →
        cellAt (g.handle_grid_click x y).grid a b = cellAt g.grid a b) ∧
      (g.handle_grid_click x y).is_running = g.is_running ∧
      (g.handle_grid_click x y).grid_size = g.grid_size) ∧
    (¬(0 ≤ row ∧ row < g.grid_size ∧ 0 ≤ col ∧ col < g.grid_size) →
      g.handle_grid_click x y = g) := by
  subst hrow
  subst hcol
  constructor
  · intro h
    obtain ⟨hr0, hrN, hc0, hcN⟩ := h
    have hiN : ((y - TOOLBAR_HEIGHT).fdiv g.cell_size).toNat < g.grid_size.toNat := by omega
    have hjN : (x.fdiv g.cell_size).toNat < g.grid_size.toNat := by omega
    have hilen : ((y - TOOLBAR_HEIGHT).fdiv g.cell_size).toNat < g.grid.length := by
      rw [hg.1]; exact hiN
    have hjlen : (x.fdiv g.cell_size).toNat <
        (g.grid.getD ((y - TOOLBAR_HEIGHT).fdiv g.cell_size).toNat []).length := by
      rw [(hg.2 _ hiN).1]; exact hjN
    have hcl : g.handle_grid_click x y =
        { g with grid := (setCell g.grid ((y - TOOLBAR_HEIGHT).fdiv g.cell_size).toNat
            (x.fdiv g.cell_size).toNat
            (1 - getCell g.grid ((y - TOOLBAR_HEIGHT).fdiv g.cell_size)
              (x.fdiv g.cell_size))) } := by
      unfold GameOfLife.handle_grid_click GameOfLife.toggleCell
      rw [if_pos ⟨hr0, hrN, hc0, hcN⟩]
    rw [hcl]
    refine ⟨?_, ?_, rfl, rfl⟩
    · show cellAt (setCell g.grid _ _ _) _ _ = _
      rw [cellAt_setCell _ _ _ _ _ _ hilen hjlen, if_pos ⟨rfl, rfl⟩]
      rfl
    · intro a b hab
      show cellAt (setCell g.grid _ _ _) a b = cellAt g.grid a b
      rw [cellAt_setCell _ _ _ _ _ _ hilen hjlen, if_neg hab]
  · intro h
    unfold GameOfLife.handle_grid_click GameOfLife.toggleCell
    rw [if_neg h]

/-- Witness for C10 at a concrete click inside the grid area. -/
theorem handle_grid_click_frame_witness :
    ((GameOfLife.init 3 30).handle_grid_click 35 95).is_running
      = (GameOfLife.init 3 30).is_running :=
  ((handle_grid_click_frame (GameOfLife.init 3 30) (by decide) 35 95 2 1
    (by decide) (by decide)).1 (by decide)).2.2.1


/-! Claim C8: the blinker oscillates with period two. The pattern sits
centrally: the alive cells together with a one-cell dead margin stay away
from the toroidal wrap, which the hypotheses 2 <= r <= N - 3 and
2 <= c <= N - 3 express (they force N >= 5). -/

theorem neg_one_emod (N : Int) (h : 0 < N) : (-1 : Int) % N = N - 1 := by
  have h1 : (-1 + N * 1) % N = (-1) % N := Int.add_mul_emod_self_left (-1) N 1
  have h2 : (-1 + N * 1 : Int) = N - 1 := by ring
  rw [h2] at h1
  rw [← h1]
  exact Int.emod_eq_of_lt (by omega) (by omega)

theorem emod_eq_iff_of_near (N : Nat) (t a : Int) (ha : -1 ≤ a ∧ a ≤ N)
    (ht : 1 ≤ t ∧ t ≤ (N : Int) - 2) : a % (N : Int) = t ↔ a = t := by
  have hN : (0 : Int) < N := by omega
  by_cases h1 : a = -1
  · subst h1
    rw [neg_one_emod _ hN]
    constructor <;> intro h <;> omega
  · by_cases h2 : a = N
    · subst h2
      rw [Int.emod_self]
      constructor <;> intro h <;> omega
    · have h3 : 0 ≤ a ∧ a < N := by omega
      rw [Int.emod_eq_of_lt h3.1 h3.2]

theorem cellAt_blinkerH (N r c i j : Nat) (hi : i < N) (hj : j < N) :
    cellAt (blinkerH N r c) i j =
      if i = r ∧ (j + 1 = c ∨ j = c ∨ j = c + 1) then (1 : Int) else 0 := by
  unfold blinkerH
  exact cellAt_map_range N _ hi hj

theorem cellAt_blinkerV (N r c i j : Nat) (hi : i < N) (hj : j < N) :
    cellAt (blinkerV N r c) i j =
      if (i + 1 = r ∨ i = r ∨ i = r + 1) ∧ j = c then (1 : Int) else 0 := by
  unfold blinkerV
  exact cellAt_map_range N _ hi hj

theorem getCell_blinkerH (N r c : Nat) (a b : Int)
    (ha : 0 ≤ a ∧ a < N) (hb : 0 ≤ b ∧ b < N) :
    getCell (blinkerH N r c) a b =
      if a = (r : Int) ∧ (b = (c : Int) - 1 ∨ b = (c : Int) ∨ b = (c : Int) + 1)
      then 1 else 0 := by
  unfold getCell blinkerH
  rw [cellAt_map_range _ _ (show a.toNat < N by omega) (show b.toNat < N by omega)]
  have h1 : (a.toNat = r) ↔ (a = (r : Int)) := by omega
  have h2 : (b.toNat + 1 = c) ↔ (b = (c : Int) - 1) := by omega
  have h3 : (b.toNat = c) ↔ (b = (c : Int)) := by omega
  have h4 : (b.toNat = c + 1) ↔ (b = (c : Int) + 1) := by omega
  simp only [h1, h2, h3, h4]

theorem getCell_blinkerV (N r c : Nat) (a b : Int)
    (ha : 0 ≤ a ∧ a < N) (hb : 0 ≤ b ∧ b < N) :
    getCell (blinkerV N r c) a b =
      if (a = (r : Int) - 1 ∨ a = (r : Int) ∨ a = (r : Int) + 1) ∧ b = (c : Int)
      then 1 else 0 := by
  unfold getCell blinkerV
  rw [cellAt_map_range _ _ (show a.toNat < N by omega) (show b.toNat < N by omega)]
  have h1 : (a.toNat + 1 = r) ↔ (a = (r : Int) - 1) := by omega
  have h2 : (a.toNat = r) ↔ (a = (r : Int)) := by omega
  have h3 : (a.toNat = r + 1) ↔ (a = (r : Int) + 1) := by omega
  have h4 : (b.toNat = c) ↔ (b = (c : Int)) := by omega
  simp only [h1, h2, h3, h4]

theorem getCell_blinkerH_wrap (N r c i j : Nat) (dr dc : Int)
    (hi : i < N) (hj : j < N) (hdr : -1 ≤ dr ∧ dr ≤ 1) (hdc : -1 ≤ dc ∧ dc ≤ 1)
    (hr : 2 ≤ r ∧ r + 3 ≤ N) (hc : 2 ≤ c ∧ c + 3 ≤ N) :
    getCell (blinkerH N r c) (((i : Int) + dr) % (N : Int)) (((j : Int) + dc) % (N : Int)) =
      if ((i : Int) + dr = (r : Int) ∧
          ((j : Int) + dc = (c : Int) - 1 ∨ (j : Int) + dc = (c : Int) ∨
           (j : Int) + dc = (c : Int) + 1))
      then 1 else 0 := by
  have hN : (0 : Int) < (N : Int) := by omega
  have hra := Int.emod_nonneg ((i : Int) + dr) (show ((N : Nat) : Int) ≠ 0 by omega)
  have hrb := Int.emod_lt_of_pos ((i : Int) + dr) hN
  have hca := Int.emod_nonneg ((j : Int) + dc) (show ((N : Nat) : Int) ≠ 0 by omega)
  have hcb := Int.emod_lt_of_pos ((j : Int) + dc) hN
  rw [getCell_blinkerH N r c _ _ ⟨hra, hrb⟩ ⟨hca, hcb⟩]
  have e1 : ((((i : Int) + dr) % (N : Int)) = (r : Int)) ↔ ((i : Int) + dr = (r : Int)) :=
    emod_eq_iff_of_near N r ((i : Int) + dr) ⟨by omega, by omega⟩ ⟨by omega, by omega⟩
  have e2 : ((((j : Int) + dc) % (N : Int)) = (c : Int) - 1) ↔ ((j : Int) + dc = (c : Int) - 1) :=
    emod_eq_iff_of_near N ((c : Int) - 1) ((j : Int) + dc) ⟨by omega, by omega⟩ ⟨by omega, by omega⟩
  have e3 : ((((j : Int) + dc) % (N : Int)) = (c : Int)) ↔ ((j : Int) + dc = (c : Int)) :=
    emod_eq_iff_of_near N c ((j : Int) + dc) ⟨by omega, by omega⟩ ⟨by omega, by omega⟩
  have e4 : ((((j : Int) + dc) % (N : Int)) = (c : Int) + 1) ↔ ((j : Int) + dc = (c : Int) + 1) :=
    emod_eq_iff_of_near N ((c : Int) + 1) ((j : Int) + dc) ⟨by omega, by omega⟩ ⟨by omega, by omega⟩
  simp only [e1, e2, e3, e4]

theorem getCell_blinkerV_wrap (N r c i j : Nat) (dr dc : Int)
    (hi : i < N) (hj : j < N) (hdr : -1 ≤ dr ∧ dr ≤ 1) (hdc : -1 ≤ dc ∧ dc ≤ 1)
    (hr : 2 ≤ r ∧ r + 3 ≤ N) (hc : 2 ≤ c ∧ c + 3 ≤ N) :
    getCell (blinkerV N r c) (((i : Int) + dr) % (N : Int)) (((j : Int) + dc) % (N : Int)) =
      if (((i : Int) + dr = (r : Int) - 1 ∨ (i : Int) + dr = (r : Int) ∨
           (i : Int) + dr = (r : Int) + 1) ∧ (j : Int) + dc = (c : Int))
      then 1 else 0 := by
  have hN : (0 : Int) < (N : Int) := by omega
  have hra := Int.emod_nonneg ((i : Int) + dr) (show ((N : Nat) : Int) ≠ 0 by omega)
  have hrb := Int.emod_lt_of_pos ((i : Int) + dr) hN
  have hca := Int.emod_nonneg ((j : Int) + dc) (show ((N : Nat) : Int) ≠ 0 by omega)
  have hcb := Int.emod_lt_of_pos ((j : Int) + dc) hN
  rw [getCell_blinkerV N r c _ _ ⟨hra, hrb⟩ ⟨hca, hcb⟩]
  have e1 : ((((i : Int) + dr) % (N : Int)) = (r : Int) - 1) ↔ ((i : Int) + dr = (r : Int) - 1) :=
    emod_eq_iff_of_near N ((r : Int) - 1) ((i : Int) + dr) ⟨by omega, by omega⟩ ⟨by omega, by omega⟩
  have e2 : ((((i : Int) + dr) % (N : Int)) = (r : Int)) ↔ ((i : Int) + dr = (r : Int)) :=
    emod_eq_iff_of_near N r ((i : Int) + dr) ⟨by omega, by omega⟩ ⟨by omega, by omega⟩
  have e3 : ((((i : Int) + dr) % (N : Int)) = (r : Int) + 1) ↔ ((i : Int) + dr = (r : Int) + 1) :=
    emod_eq_iff_of_near N ((r : Int) + 1) ((i : Int) + dr) ⟨by omega, by omega⟩ ⟨by omega, by omega⟩
  have e4 : ((((j : Int) + dc) % (N : Int)) = (c : Int)) ↔ ((j : Int) + dc = (c : Int)) :=
    emod_eq_iff_of_near N c ((j : Int) + dc) ⟨by omega, by omega⟩ ⟨by omega, by omega⟩
  simp only [e1, e2, e3, e4]

/-- Clamp an integer difference into the interval from -3 to 3; all the
blinker conditions only depend on the clamped difference. -/
def clamp3 (d : Int) : Int := if d ≤ -3 then -3 else if 3 ≤ d then 3 else d

theorem clamp3_bounds (d : Int) : -3 ≤ clamp3 d ∧ clamp3 d ≤ 3 := by
  unfold clamp3
  split_ifs <;> omega

theorem life_step_core_H (u v : Int) (hu : -3 ≤ u ∧ u ≤ 3) (hv : -3 ≤ v ∧ v ≤ 3) :
    (if (if (u = 0 ∧ (v = -1 ∨ v = 0 ∨ v = 1)) then (1 : Int) else 0) = 1 ∧ (0 + (if (u + -1 = 0 ∧ (v + -1 = -1 ∨ v + -1 = 0 ∨ v + -1 = 1)) then (1 : Int) else 0) + (if (u + -1 = 0 ∧ (v + 0 = -1 ∨ v + 0 = 0 ∨ v + 0 = 1)) then (1 : Int) else 0) + (if (u + -1 = 0 ∧ (v + 1 = -1 ∨ v + 1 = 0 ∨ v + 1 = 1)) then (1 : Int) else 0) + (if (u + 0 = 0 ∧ (v + -1 = -1 ∨ v + -1 = 0 ∨ v + -1 = 1)) then (1 : Int) else 0) + (if (u + 0 = 0 ∧ (v + 1 = -1 ∨ v + 1 = 0 ∨ v + 1 = 1)) then (1 : Int) else 0) + (if (u + 1 = 0 ∧ (v + -1 = -1 ∨ v + -1 = 0 ∨ v + -1 = 1)) then (1 : Int) else 0) + (if (u + 1 = 0 ∧ (v + 0 = -1 ∨ v + 0 = 0 ∨ v + 0 = 1)) then (1 : Int) else 0) + (if (u + 1 = 0 ∧ (v + 1 = -1 ∨ v + 1 = 0 ∨ v + 1 = 1)) then (1 : Int) else 0) < 2 ∨ 0 + (if (u + -1 = 0 ∧ (v + -1 = -1 ∨ v + -1 = 0 ∨ v + -1 = 1)) then (1 : Int) else 0) + (if (u + -1 = 0 ∧ (v + 0 = -1 ∨ v + 0 = 0 ∨ v + 0 = 1)) then (1 : Int) else 0) + (if (u + -1 = 0 ∧ (v + 1 = -1 ∨ v + 1 = 0 ∨ v + 1 = 1)) then (1 : Int) else 0) + (if (u + 0 = 0 ∧ (v + -1 = -1 ∨ v + -1 = 0 ∨ v + -1 = 1)) then (1 : Int) else 0) + (if (u + 0 = 0 ∧ (v + 1 = -1 ∨ v + 1 = 0 ∨ v + 1 = 1)) then (1 : Int) else 0) + (if (u + 1 = 0 ∧ (v + -1 = -1 ∨ v + -1 = 0 ∨ v + -1 = 1)) then (1 : Int) else 0) + (if (u + 1 = 0 ∧ (v + 0 = -1 ∨ v + 0 = 0 ∨ v + 0 = 1)) then (1 : Int) else 0) + (if (u + 1 = 0 ∧ (v + 1 = -1 ∨ v + 1 = 0 ∨ v + 1 = 1)) then (1 : Int) else 0) > 3) then 0
     else if (if (u = 0 ∧ (v = -1 ∨ v = 0 ∨ v = 1)) then (1 : Int) else 0) = 0 ∧ 0 + (if (u + -1 = 0 ∧ (v + -1 = -1 ∨ v + -1 = 0 ∨ v + -1 = 1)) then (1 : Int) else 0) + (if (u + -1 = 0 ∧ (v + 0 = -1 ∨ v + 0 = 0 ∨ v + 0 = 1)) then (1 : Int) else 0) + (if (u + -1 = 0 ∧ (v + 1 = -1 ∨ v + 1 = 0 ∨ v + 1 = 1)) then (1 : Int) else 0) + (if (u + 0 = 0 ∧ (v + -1 = -1 ∨ v + -1 = 0 ∨ v + -1 = 1)) then (1 : Int) else 0) + (if (u + 0 = 0 ∧ (v + 1 = -1 ∨ v + 1 = 0 ∨ v + 1 = 1)) then (1 : Int) else 0) + (if (u + 1 = 0 ∧ (v + -1 = -1 ∨ v + -1 = 0 ∨ v + -1 = 1)) then (1 : Int) else 0) + (if (u + 1 = 0 ∧ (v + 0 = -1 ∨ v + 0 = 0 ∨ v + 0 = 1)) then (1 : Int) else 0) + (if (u + 1 = 0 ∧ (v + 1 = -1 ∨ v + 1 = 0 ∨ v + 1 = 1)) then (1 : Int) else 0) = 3 then 1
     else (if (u = 0 ∧ (v = -1 ∨ v = 0 ∨ v = 1)) then (1 : Int) else 0)) = (if ((u = -1 ∨ u = 0 ∨ u = 1) ∧ v = 0) then (1 : Int) else 0) := by
  have h7 : u = -3 ∨ u = -2 ∨ u = -1 ∨ u = 0 ∨ u = 1 ∨ u = 2 ∨ u = 3 := by omega
  have h7v : v = -3 ∨ v = -2 ∨ v = -1 ∨ v = 0 ∨ v = 1 ∨ v = 2 ∨ v = 3 := by omega
  rcases h7 with rfl | rfl | rfl | rfl | rfl | rfl | rfl <;>
    rcases h7v with rfl | rfl | rfl | rfl | rfl | rfl | rfl <;> decide

theorem life_step_core_V (u v : Int) (hu : -3 ≤ u ∧ u ≤ 3) (hv : -3 ≤ v ∧ v ≤ 3) :
    (if (if ((u = -1 ∨ u = 0 ∨ u = 1) ∧ v = 0) then (1 : Int) else 0) = 1 ∧ (0 + (if ((u + -1 = -1 ∨ u + -1 = 0 ∨ u + -1 = 1) ∧ v + -1 = 0) then (1 : Int) else 0) + (if ((u + -1 = -1 ∨ u + -1 = 0 ∨ u + -1 = 1) ∧ v + 0 = 0) then (1 : Int) else 0) + (if ((u + -1 = -1 ∨ u + -1 = 0 ∨ u + -1 = 1) ∧ v + 1 = 0) then (1 : Int) else 0) + (if ((u + 0 = -1 ∨ u + 0 = 0 ∨ u + 0 = 1) ∧ v + -1 = 0) then (1 : Int) else 0) + (if ((u + 0 = -1 ∨ u + 0 = 0 ∨ u + 0 = 1) ∧ v + 1 = 0) then (1 : Int) else 0) + (if ((u + 1 = -1 ∨ u + 1 = 0 ∨ u + 1 = 1) ∧ v + -1 = 0) then (1 : Int) else 0) + (if ((u + 1 = -1 ∨ u + 1 = 0 ∨ u + 1 = 1) ∧ v + 0 = 0) then (1 : Int) else 0) + (if ((u + 1 = -1 ∨ u + 1 = 0 ∨ u + 1 = 1) ∧ v + 1 = 0) then (1 : Int) else 0) < 2 ∨ 0 + (if ((u + -1 = -1 ∨ u + -1 = 0 ∨ u + -1 = 1) ∧ v + -1 = 0) then (1 : Int) else 0) + (if ((u + -1 = -1 ∨ u + -1 = 0 ∨ u + -1 = 1) ∧ v + 0 = 0) then (1 : Int) else 0) + (if ((u + -1 = -1 ∨ u + -1 = 0 ∨ u + -1 = 1) ∧ v + 1 = 0) then (1 : Int) else 0) + (if ((u + 0 = -1 ∨ u + 0 = 0 ∨ u + 0 = 1) ∧ v + -1 = 0) then (1 : Int) else 0) + (if ((u + 0 = -1 ∨ u + 0 = 0 ∨ u + 0 = 1) ∧ v + 1 = 0) then (1 : Int) else 0) + (if ((u + 1 = -1 ∨ u + 1 = 0 ∨ u + 1 = 1) ∧ v + -1 = 0) then (1 : Int) else 0) + (if ((u + 1 = -1 ∨ u + 1 = 0 ∨ u + 1 = 1) ∧ v + 0 = 0) then (1 : Int) else 0) + (if ((u + 1 = -1 ∨ u + 1 = 0 ∨ u + 1 = 1) ∧ v + 1 = 0) then (1 : Int) else 0) > 3) then 0
     else if (if ((u = -1 ∨ u = 0 ∨ u = 1) ∧ v = 0) then (1 : Int) else 0) = 0 ∧ 0 + (if ((u + -1 = -1 ∨ u + -1 = 0 ∨ u + -1 = 1) ∧ v + -1 = 0) then (1 : Int) else 0) + (if ((u + -1 = -1 ∨ u + -1 = 0 ∨ u + -1 = 1) ∧ v + 0 = 0) then (1 : Int) else 0) + (if ((u + -1 = -1 ∨ u + -1 = 0 ∨ u + -1 = 1) ∧ v + 1 = 0) then (1 : Int) else 0) + (if ((u + 0 = -1 ∨ u + 0 = 0 ∨ u + 0 = 1) ∧ v + -1 = 0) then (1 : Int) else 0) + (if ((u + 0 = -1 ∨ u + 0 = 0 ∨ u + 0 = 1) ∧ v + 1 = 0) then (1 : Int) else 0) + (if ((u + 1 = -1 ∨ u + 1 = 0 ∨ u + 1 = 1) ∧ v + -1 = 0) then (1 : Int) else 0) + (if ((u + 1 = -1 ∨ u + 1 = 0 ∨ u + 1 = 1) ∧ v + 0 = 0) then (1 : Int) else 0) + (if ((u + 1 = -1 ∨ u + 1 = 0 ∨ u + 1 = 1) ∧ v + 1 = 0) then (1 : Int) else 0) = 3 then 1
     else (if ((u = -1 ∨ u = 0 ∨ u = 1) ∧ v = 0) then (1 : Int) else 0)) = (if (u = 0 ∧ (v = -1 ∨ v = 0 ∨ v = 1)) then (1 : Int) else 0) := by
  have h7 : u = -3 ∨ u = -2 ∨ u = -1 ∨ u = 0 ∨ u = 1 ∨ u = 2 ∨ u = 3 := by omega
  have h7v : v = -3 ∨ v = -2 ∨ v = -1 ∨ v = 0 ∨ v = 1 ∨ v = 2 ∨ v = 3 := by omega
  rcases h7 with rfl | rfl | rfl | rfl | rfl | rfl | rfl <;>
    rcases h7v with rfl | rfl | rfl | rfl | rfl | rfl | rfl <;> decide

theorem getCell_blinkerH_wrapC (N r c i j : Nat) (dr dc : Int)
    (hi : i < N) (hj : j < N) (hdr : -1 ≤ dr ∧ dr ≤ 1) (hdc : -1 ≤ dc ∧ dc ≤ 1)
    (hr : 2 ≤ r ∧ r + 3 ≤ N) (hc : 2 ≤ c ∧ c + 3 ≤ N) :
    getCell (blinkerH N r c) (((i : Int) + dr) % (N : Int)) (((j : Int) + dc) % (N : Int)) =
      if (clamp3 ((i : Int) - (r : Int)) + dr = 0 ∧
          (clamp3 ((j : Int) - (c : Int)) + dc = -1 ∨
           clamp3 ((j : Int) - (c : Int)) + dc = 0 ∨
           clamp3 ((j : Int) - (c : Int)) + dc = 1)) then (1 : Int) else 0 := by
  rw [getCell_blinkerH_wrap N r c i j dr dc hi hj hdr hdc hr hc]
  unfold clamp3
  split_ifs <;> first | omega | simp_all

theorem getCell_blinkerV_wrapC (N r c i j : Nat) (dr dc : Int)
    (hi : i < N) (hj : j < N) (hdr : -1 ≤ dr ∧ dr ≤ 1) (hdc : -1 ≤ dc ∧ dc ≤ 1)
    (hr : 2 ≤ r ∧ r + 3 ≤ N) (hc : 2 ≤ c ∧ c + 3 ≤ N) :
    getCell (blinkerV N r c) (((i : Int) + dr) % (N : Int)) (((j : Int) + dc) % (N : Int)) =
      if ((clamp3 ((i : Int) - (r : Int)) + dr = -1 ∨
           clamp3 ((i : Int) - (r : Int)) + dr = 0 ∨
           clamp3 ((i : Int) - (r : Int)) + dr = 1) ∧
          clamp3 ((j : Int) - (c : Int)) + dc = 0) then (1 : Int) else 0 := by
  rw [getCell_blinkerV_wrap N r c i j dr dc hi hj hdr hdc hr hc]
  unfold clamp3
  split_ifs <;> first | omega | simp_all

theorem cellAt_blinkerH_clamped (N r c i j : Nat) (hi : i < N) (hj : j < N) :
    cellAt (blinkerH N r c) i j =
      if (clamp3 ((i : Int) - (r : Int)) = 0 ∧
          (clamp3 ((j : Int) - (c : Int)) = -1 ∨
           clamp3 ((j : Int) - (c : Int)) = 0 ∨
           clamp3 ((j : Int) - (c : Int)) = 1)) then (1 : Int) else 0 := by
  rw [cellAt_blinkerH N r c i j hi hj]
  unfold clamp3
  split_ifs <;> first | omega | simp_all

theorem cellAt_blinkerV_clamped (N r c i j : Nat) (hi : i < N) (hj : j < N) :
    cellAt (blinkerV N r c) i j =
      if ((clamp3 ((i : Int) - (r : Int)) = -1 ∨
           clamp3 ((i : Int) - (r : Int)) = 0 ∨
           clamp3 ((i : Int) - (r : Int)) = 1) ∧
          clamp3 ((j : Int) - (c : Int)) = 0) then (1 : Int) else 0 := by
  rw [cellAt_blinkerV N r c i j hi hj]
  unfold clamp3
  split_ifs <;> first | omega | simp_all

theorem blinkerV_target_clamped (r c i j : Nat) :
    (if (i + 1 = r ∨ i = r ∨ i = r + 1) ∧ j = c then (1 : Int) else 0) =
      if ((clamp3 ((i : Int) - (r : Int)) = -1 ∨
           clamp3 ((i : Int) - (r : Int)) = 0 ∨
           clamp3 ((i : Int) - (r : Int)) = 1) ∧
          clamp3 ((j : Int) - (c : Int)) = 0) then (1 : Int) else 0 := by
  unfold clamp3
  split_ifs <;> first | omega | simp_all

theorem blinkerH_target_clamped (r c i j : Nat) :
    (if i = r ∧ (j + 1 = c ∨ j = c ∨ j = c + 1) then (1 : Int) else 0) =
      if (clamp3 ((i : Int) - (r : Int)) = 0 ∧
          (clamp3 ((j : Int) - (c : Int)) = -1 ∨
           clamp3 ((j : Int) - (c : Int)) = 0 ∨
           clamp3 ((j : Int) - (c : Int)) = 1)) then (1 : Int) else 0 := by
  unfold clamp3
  split_ifs <;> first | omega | simp_all

set_option maxHeartbeats 1000000 in
theorem blinkerH_step (g : GameOfLife) (N r c : Nat)
    (hgs : g.grid_size = (N : Int)) (hgrid : g.grid = blinkerH N r c)
    (hr : 2 ≤ r ∧ r + 3 ≤ N) (hc : 2 ≤ c ∧ c + 3 ≤ N) :
    g.apply_rules = blinkerV N r c := by
  unfold GameOfLife.apply_rules blinkerV
  simp only [hgs, Int.toNat_natCast]
  apply List.map_inj_left.mpr
  intro i hi0
  have hi : i < N := List.mem_range.mp hi0
  apply List.map_inj_left.mpr
  intro j hj0
  have hj : j < N := List.mem_range.mp hj0
  unfold GameOfLife.count_neighbors DIRECTIONS
  simp only [hgrid, hgs, List.foldl_cons, List.foldl_nil]
  rw [getCell_blinkerH_wrapC N r c i j (-1) (-1) hi hj (by omega) (by omega) hr hc]
  rw [getCell_blinkerH_wrapC N r c i j (-1) 0 hi hj (by omega) (by omega) hr hc]
  rw [getCell_blinkerH_wrapC N r c i j (-1) 1 hi hj (by omega) (by omega) hr hc]
  rw [getCell_blinkerH_wrapC N r c i j 0 (-1) hi hj (by omega) (by omega) hr hc]
  rw [getCell_blinkerH_wrapC N r c i j 0 1 hi hj (by omega) (by omega) hr hc]
  rw [getCell_blinkerH_wrapC N r c i j 1 (-1) hi hj (by omega) (by omega) hr hc]
  rw [getCell_blinkerH_wrapC N r c i j 1 0 hi hj (by omega) (by omega) hr hc]
  rw [getCell_blinkerH_wrapC N r c i j 1 1 hi hj (by omega) (by omega) hr hc]
  rw [cellAt_blinkerH_clamped N r c i j hi hj]
  rw [blinkerV_target_clamped r c i j]
  exact life_step_core_H (clamp3 ((i : Int) - (r : Int))) (clamp3 ((j : Int) - (c : Int)))
    (clamp3_bounds _) (clamp3_bounds _)

set_option maxHeartbeats 1000000 in
theorem blinkerV_step (g : GameOfLife) (N r c : Nat)
    (hgs : g.grid_size = (N : Int)) (hgrid : g.grid = blinkerV N r c)
    (hr : 2 ≤ r ∧ r + 3 ≤ N) (hc : 2 ≤ c ∧ c + 3 ≤ N) :
    g.apply_rules = blinkerH N r c := by
  unfold GameOfLife.apply_rules blinkerH
  simp only [hgs, Int.toNat_natCast]
  apply List.map_inj_left.mpr
  intro i hi0
  have hi : i < N := List.mem_range.mp hi0
  apply List.map_inj_left.mpr
  intro j hj0
  have hj : j < N := List.mem_range.mp hj0
  unfold GameOfLife.count_neighbors DIRECTIONS
  simp only [hgrid, hgs, List.foldl_cons, List.foldl_nil]
  rw [getCell_blinkerV_wrapC N r c i j (-1) (-1) hi hj (by omega) (by omega) hr hc]
  rw [getCell_blinkerV_wrapC N r c i j (-1) 0 hi hj (by omega) (by omega) hr hc]
  rw [getCell_blinkerV_wrapC N r c i j (-1) 1 hi hj (by omega) (by omega) hr hc]
  rw [getCell_blinkerV_wrapC N r c i j 0 (-1) hi hj (by omega) (by omega) hr hc]
  rw [getCell_blinkerV_wrapC N r c i j 0 1 hi hj (by omega) (by omega) hr hc]
  rw [getCell_blinkerV_wrapC N r c i j 1 (-1) hi hj (by omega) (by omega) hr hc]
  rw [getCell_blinkerV_wrapC N r c i j 1 0 hi hj (by omega) (by omega) hr hc]
  rw [getCell_blinkerV_wrapC N r c i j 1 1 hi hj (by omega) (by omega) hr hc]
  rw [cellAt_blinkerV_clamped N r c i j hi hj]
  rw [blinkerH_target_clamped r c i j]
  exact life_step_core_V (clamp3 ((i : Int) - (r : Int))) (clamp3 ((j : Int) - (c : Int)))
    (clamp3_bounds _) (clamp3_bounds _)

/-- C8: on a grid of size N with the horizontal blinker placed centrally
(row r, columns c-1, c, c+1 alive, everything else dead, where
2 <= r <= N - 3 and 2 <= c <= N - 3, which forces N >= 5), one application
of apply_rules yields the vertical blinker (rows r-1, r, r+1 at column c)
and a second application returns the original horizontal blinker. -/
theorem blinker_period_two (g : GameOfLife) (N r c : Nat)
    (hgs : g.grid_size = (N : Int)) (hgrid : g.grid = blinkerH N r c)
    (hr : 2 ≤ r ∧ r + 3 ≤ N) (hc : 2 ≤ c ∧ c + 3 ≤ N) :
    g.apply_rules = blinkerV N r c ∧
    ({ g with grid := g.apply_rules } : GameOfLife).apply_rules = blinkerH N r c := by
  have h1 := blinkerH_step g N r c hgs hgrid hr hc
  refine ⟨h1, ?_⟩
  exact blinkerV_step ({ g with grid := g.apply_rules } : GameOfLife) N r c hgs h1 hr hc

/-- Witness for C8 on the concrete centrally placed blinker with N = 5,
r = 2, c = 2. -/
theorem blinker_period_two_witness :
    (GameOfLife.mk 5 30 (blinkerH 5 2 2) true true).apply_rules = blinkerV 5 2 2 ∧
    ({ GameOfLife.mk 5 30 (blinkerH 5 2 2) true true with
        grid := (GameOfLife.mk 5 30 (blinkerH 5 2 2) true true).apply_rules } : GameOfLife).apply_rules
      = blinkerH 5 2 2 :=
  blinker_period_two (GameOfLife.mk 5 30 (blinkerH 5 2 2) true true) 5 2 2 rfl rfl
    (by decide) (by decide)
